import Mathlib

/-!
Shallow embedding of the `Seo` React component of the blog repository
(`src/components/seo.js`) together with the pieces of its environment the
specification talks about: the site metadata object delivered by the static
query, the props record with its `defaultProps`, and the Helmet output
(html `lang` attribute, title, title template, `link` list, `meta` list).

JavaScript strings-or-null values are modelled as `Option String`
(`none` = null/undefined); JavaScript truthiness of such a value is
`truthy` below, and `a || b` is `jsOr a b`.
-/

/-- JavaScript truthiness of a string-or-null value: null/undefined and the
empty string are falsy, every other string is truthy. -/
def truthy : Option String → Bool
  | none => false
  | some s => decide (s ≠ "")

/-- JavaScript `a || b` on string-or-null values: `a` when truthy, else `b`. -/
def jsOr (a b : Option String) : Option String :=
  if truthy a then a else b

/-- The `author { name }` object of the site metadata. -/
structure SiteAuthor where
  name : Option String
deriving DecidableEq, Repr

/-- The `social { linkedin stackoverflow github }` object of the site metadata. -/
structure SiteSocial where
  linkedin : Option String
  stackoverflow : Option String
  github : Option String
deriving DecidableEq, Repr

/-- The `site.siteMetadata` object queried by the component (seo.js lines
23-44): title, description, siteUrl, image, author, social. -/
structure SiteMetadata where
  title : Option String
  description : Option String
  siteUrl : Option String
  image : Option String
  author : Option SiteAuthor
  social : Option SiteSocial
deriving DecidableEq, Repr

/-- Key of a rendered meta tag: either a `name` attribute or a `property`
attribute, as in the object literals of seo.js. -/
inductive MetaKey where
  | name (s : String)
  | property (s : String)
deriving DecidableEq, Repr

/-- One meta tag descriptor: its key and its `content` value (the content can
be a null-ish JavaScript value, e.g. `og:site_name` when the site has no
title). -/
structure MetaTag where
  key : MetaKey
  content : Option String
deriving DecidableEq, Repr

/-- One link tag descriptor, as in the `link` array of seo.js lines 61-66. -/
structure LinkTag where
  rel : String
  href : String
deriving DecidableEq, Repr

/-- The props of the `Seo` component. The field defaults are the values of
`Seo.defaultProps` (seo.js lines 170-178) together with the destructuring
defaults of lines 19-21; `title` is the one prop with no default
(`PropTypes.string.isRequired`). -/
structure SeoProps where
  description : Option String := some ""
  lang : String := "en"
  meta : List MetaTag := []
  title : String
  image : Option String := none
  article : Bool := false
  canonicalUrl : Option String := none
  noindex : Bool := false
deriving DecidableEq, Repr

/-- seo.js line 46: `description || site.siteMetadata.description`. -/
def metaDescription (p : SeoProps) (s : SiteMetadata) : Option String :=
  jsOr p.description s.description

/-- seo.js line 47: `site.siteMetadata?.title`. -/
def defaultTitle (s : SiteMetadata) : Option String :=
  s.title

/-- seo.js line 48: `site.siteMetadata?.siteUrl || ''` (a plain string: a
truthy configured value, else the empty string). -/
def siteUrl (s : SiteMetadata) : String :=
  (jsOr s.siteUrl (some "")).getD ""

/-- seo.js line 49: `image || site.siteMetadata?.image`. -/
def defaultImage (p : SeoProps) (s : SiteMetadata) : Option String :=
  jsOr p.image s.image

/-- seo.js line 50: `defaultImage ? siteUrl + defaultImage : null`. -/
def imageUrl (p : SeoProps) (s : SiteMetadata) : Option String :=
  if truthy (defaultImage p s) then
    some (siteUrl s ++ (defaultImage p s).getD "")
  else
    none

/-- seo.js line 51: `canonicalUrl || siteUrl` (the template literal around
`siteUrl` is the identity on a string). -/
def pageUrl (p : SeoProps) (s : SiteMetadata) : String :=
  if truthy p.canonicalUrl then p.canonicalUrl.getD "" else siteUrl s

/-- seo.js line 52: `site.siteMetadata?.author?.name || ''`. -/
def author (s : SiteMetadata) : String :=
  ((s.author.bind SiteAuthor.name).getD "")

/-- The meta tag array the component generates (seo.js lines 67-164), before
the caller-supplied `meta` prop is concatenated. -/
def seoGeneratedMeta (p : SeoProps) (s : SiteMetadata) : List MetaTag :=
  [ ⟨.name "description", metaDescription p s⟩,
    ⟨.property "og:title", some p.title⟩,
    ⟨.property "og:description", metaDescription p s⟩,
    ⟨.property "og:type", some (if p.article then "article" else "website")⟩,
    ⟨.property "og:url", some (pageUrl p s)⟩,
    ⟨.property "og:site_name", defaultTitle s⟩,
    ⟨.property "og:locale", some (if p.lang = "en" then "en_US" else p.lang)⟩,
    ⟨.name "twitter:card",
      some (if truthy (imageUrl p s) then "summary_large_image" else "summary")⟩,
    ⟨.name "twitter:creator", some (author s)⟩,
    ⟨.name "twitter:site", some (author s)⟩,
    ⟨.name "twitter:title", some p.title⟩,
    ⟨.name "twitter:description", metaDescription p s⟩,
    ⟨.name "twitter:url", some (pageUrl p s)⟩ ]
  ++ (if truthy (imageUrl p s) then
        [ ⟨.property "og:image", imageUrl p s⟩,
          ⟨.property "og:image:width", some "1200"⟩,
          ⟨.property "og:image:height", some "630"⟩,
          ⟨.name "twitter:image", imageUrl p s⟩ ]
      else [])
  ++ (if p.article && truthy (some (author s)) then
        [ ⟨.name "author", some (author s)⟩ ]
      else [])
  ++ (if p.noindex then
        [ ⟨.name "robots", some "noindex, nofollow"⟩,
          ⟨.name "googlebot", some "noindex, nofollow"⟩ ]
      else [])

/-- The rendered Helmet element of the component (seo.js lines 54-167). -/
structure HelmetOutput where
  htmlLang : String
  title : String
  titleTemplate : Option String
  link : List LinkTag
  meta : List MetaTag
deriving DecidableEq, Repr

/-- The `Seo` component (seo.js lines 13-168): from its props and the queried
site metadata, the Helmet output.  The rendered meta list is the generated
array concatenated with the caller-supplied `meta` prop (line 165). -/
def Seo (p : SeoProps) (s : SiteMetadata) : HelmetOutput :=
  { htmlLang := p.lang
    title := p.title
    titleTemplate :=
      if truthy (defaultTitle s) then
        some ("%s | " ++ (defaultTitle s).getD "")
      else none
    link := [⟨"canonical", pageUrl p s⟩]
    meta := seoGeneratedMeta p s ++ p.meta }

/-- The contents of every tag of `l` whose key is `k`, in order. -/
def tagContents (l : List MetaTag) (k : MetaKey) : List (Option String) :=
  (l.filter (fun t => decide (t.key = k))).map MetaTag.content

/-- A raw props object as a caller may supply it: every prop possibly absent
(`none` = not passed).  `Seo.defaultProps` fills the absent optional props;
`title` is the prop `Seo.propTypes` marks `isRequired`. -/
structure RawSeoProps where
  description : Option String
  lang : Option String
  meta : Option (List MetaTag)
  title : Option String
  image : Option String
  article : Option Bool
  canonicalUrl : Option String
  noindex : Option Bool
deriving DecidableEq, Repr

/-- Application of `Seo.defaultProps` (seo.js lines 170-178) to a raw props
object whose `title` is present: each absent optional prop falls back to its
default (`description` to the empty string, `lang` to "en", `meta` to the
empty list, `image` and `canonicalUrl` to null, `article` and `noindex` to
false). -/
def applyDefaultProps (r : RawSeoProps) (t : String) : SeoProps :=
  { description := some (r.description.getD "")
    lang := r.lang.getD "en"
    meta := r.meta.getD []
    title := t
    image := r.image
    article := r.article.getD false
    canonicalUrl := r.canonicalUrl
    noindex := r.noindex.getD false }

/-- Modelled from the spec: the build step that renders a page through the
`Seo` component.  The repository's build pipeline and its enforcement of
`Seo.propTypes` are not under `src/`; per the spec, "a required page title
is missing, which should fail the build", and `Seo.propTypes` (seo.js lines
180-189) marks `title` as the only required prop, so a raw props object
without a title fails and every other raw props object renders after
`Seo.defaultProps` fills the absent fields. -/
def buildSeo (r : RawSeoProps) (s : SiteMetadata) : Except String HelmetOutput :=
  match r.title with
  | none => .error "the prop title is marked as required in Seo, but its value is undefined"
  | some t => .ok (Seo (applyDefaultProps r t) s)

/-- A sample fully-populated site metadata object (site-wide default image
present), used by concrete witnesses and counterexamples. -/
def exampleSite : SiteMetadata :=
  { title := some "Fernando Nogueira"
    description := some "Tech lead and software engineer blog"
    siteUrl := some "https://fernandonog.example"
    image := some "/images/og-default.png"
    author := some ⟨some "Fernando Nogueira"⟩
    social := some ⟨some "fernandonog", some "fernando-nog", some "fernando-nog"⟩ }

/-- A sample site metadata object without a site-wide default image. -/
def exampleSiteNoImage : SiteMetadata :=
  { title := some "Fernando Nogueira"
    description := some "Tech lead and software engineer blog"
    siteUrl := some "https://fernandonog.example"
    image := none
    author := some ⟨some "Fernando Nogueira"⟩
    social := none }

/-- Appending a non-empty string on the right yields a non-empty string. -/
theorem append_ne_empty_right (a b : String) (h : b ≠ "") : a ++ b ≠ "" := by
  intro he
  apply h
  have hd := congrArg String.data he
  rw [String.data_append] at hd
  have hb : b.data = [] := (List.append_eq_nil.mp hd).2
  cases b with
  | mk l => cases hb; rfl

/-- Truthiness of a wrapped string is its non-emptiness. -/
theorem truthy_some (x : String) : truthy (some x) = decide (x ≠ "") := rfl

/-- The ternary condition of seo.js lines 100 and 123 agrees with the one of
line 50: the built image URL is truthy exactly when the resolved image path
is. -/
theorem truthy_imageUrl (p : SeoProps) (s : SiteMetadata) :
    truthy (imageUrl p s) = truthy (defaultImage p s) := by
  unfold imageUrl
  cases h : truthy (defaultImage p s) with
  | false => simp [h, truthy]
  | true =>
    simp only [if_pos rfl, if_true]
    have hd : (defaultImage p s).getD "" ≠ "" := by
      cases hh : defaultImage p s with
      | none => rw [hh] at h; simp [truthy] at h
      | some d => rw [hh] at h; simpa [truthy] using h
    simp [truthy, append_ne_empty_right (siteUrl s) _ hd]

/-- Claim C1, counterexample to the claim as frozen: in a call whose `image`
prop is absent, with site metadata carrying a site-wide default image, the
`twitter:card` entry has content "summary_large_image", not "summary" -- the
card type is not independent of the site-wide default image. -/
theorem C1_counterexample :
    ({ title := "Home" } : SeoProps).image = none ∧
    tagContents (Seo { title := "Home" } exampleSite).meta (.name "twitter:card")
      = [some "summary_large_image"] ∧
    [(some "summary_large_image" : Option String)] ≠ [(some "summary" : Option String)] := by
  decide

/-- Claim C1 (amended): the generated `twitter:card` entry is unique and its
content is "summary_large_image" exactly when the resolved image (the `image`
prop if truthy, else the site-wide default image) is truthy, and "summary"
otherwise; the entry is rendered in the produced meta list. -/
theorem C1_twitter_card (p : SeoProps) (s : SiteMetadata) :
    tagContents (seoGeneratedMeta p s) (.name "twitter:card")
      = [some (if truthy (defaultImage p s) then "summary_large_image" else "summary")] ∧
    (⟨.name "twitter:card",
        some (if truthy (defaultImage p s) then "summary_large_image" else "summary")⟩ : MetaTag)
      ∈ (Seo p s).meta := by
  constructor
  · unfold seoGeneratedMeta tagContents
    simp only [truthy_imageUrl]
    cases h1 : truthy (defaultImage p s) <;>
      cases h2 : p.article && truthy (some (author s)) <;>
        cases h3 : p.noindex <;>
          simp [h1, h2, h3, List.filter_append]
  · simp [Seo, seoGeneratedMeta, truthy_imageUrl]

/-- Claim C3: the canonical link href is the `canonicalUrl` prop when that
prop is truthy and the resolved site URL otherwise, and the generated
`og:url` and `twitter:url` entries each carry exactly that value. -/
theorem C3_canonical_url (p : SeoProps) (s : SiteMetadata) :
    (Seo p s).link = [⟨"canonical", pageUrl p s⟩] ∧
    pageUrl p s = (if truthy p.canonicalUrl then p.canonicalUrl.getD "" else siteUrl s) ∧
    tagContents (seoGeneratedMeta p s) (.property "og:url") = [some (pageUrl p s)] ∧
    tagContents (seoGeneratedMeta p s) (.name "twitter:url") = [some (pageUrl p s)] := by
  refine ⟨rfl, rfl, ?_, ?_⟩ <;>
    · unfold seoGeneratedMeta tagContents
      cases h1 : truthy (imageUrl p s) <;>
        cases h2 : p.article && truthy (some (author s)) <;>
          cases h3 : p.noindex <;>
            simp [h1, h2, h3, List.filter_append]

/-- Claim C4, counterexample to the claim as frozen: with `noindex = false`
but a caller-supplied `meta` entry named robots, the produced meta list does
contain an entry named robots, because the caller list is concatenated to the
generated list. -/
theorem C4_counterexample :
    ({ title := "Home", meta := [⟨.name "robots", some "max-snippet:50"⟩] } : SeoProps).noindex
      = false ∧
    tagContents
      (Seo { title := "Home", meta := [⟨.name "robots", some "max-snippet:50"⟩] }
        exampleSiteNoImage).meta (.name "robots")
      = [some "max-snippet:50"] := by
  decide

/-- Claim C4 (amended): among the generated entries, robots and googlebot
each appear exactly once with content "noindex, nofollow" when
`noindex = true`, and do not appear at all when `noindex = false`; entries of
those names can still reach the produced list through the caller-supplied
`meta` prop. -/
theorem C4_robots (p : SeoProps) (s : SiteMetadata) :
    tagContents (seoGeneratedMeta p s) (.name "robots")
      = (if p.noindex then [some "noindex, nofollow"] else []) ∧
    tagContents (seoGeneratedMeta p s) (.name "googlebot")
      = (if p.noindex then [some "noindex, nofollow"] else []) := by
  constructor <;>
    · unfold seoGeneratedMeta tagContents
      cases h1 : truthy (imageUrl p s) <;>
        cases h2 : p.article && truthy (some (author s)) <;>
          cases h3 : p.noindex <;>
            simp [h1, h2, h3, List.filter_append]

/-- Claim C5, counterexample to the claim as frozen: with `article = true`,
a non-empty site author name, and a caller-supplied `meta` entry named
author, the produced meta list carries two entries named author, so it does
not contain exactly one author entry with the site author name. -/
theorem C5_counterexample :
    tagContents
      (Seo { title := "Post", article := true,
             meta := [⟨.name "author", some "Mallory"⟩] } exampleSiteNoImage).meta
      (.name "author")
      = [some "Fernando Nogueira", some "Mallory"] ∧
    tagContents
      (Seo { title := "Post", article := true,
             meta := [⟨.name "author", some "Mallory"⟩] } exampleSiteNoImage).meta
      (.name "author")
      ≠ [some "Fernando Nogueira"] := by
  decide

/-- Claim C5 (amended): among the generated entries there is exactly one
entry named author, carrying the resolved author name, when `article = true`
and the site author name is non-empty, and none otherwise; further author
entries can reach the produced list only through the caller-supplied `meta`
prop. -/
theorem C5_author_tag (p : SeoProps) (s : SiteMetadata) :
    tagContents (seoGeneratedMeta p s) (.name "author")
      = (if p.article ∧ author s ≠ "" then [some (author s)] else []) := by
  unfold seoGeneratedMeta tagContents
  cases h1 : truthy (imageUrl p s) <;>
    cases hA : p.article <;>
      by_cases hN : author s = "" <;>
        cases h3 : p.noindex <;>
          simp [h1, hA, hN, h3, truthy, List.filter_append]

/-- Claim C10: the generated `og:locale` entry is unique and its content is
"en_US" when the `lang` prop is "en", and the `lang` value itself otherwise;
the entry is rendered in the produced meta list. -/
theorem C10_og_locale (p : SeoProps) (s : SiteMetadata) :
    tagContents (seoGeneratedMeta p s) (.property "og:locale")
      = [some (if p.lang = "en" then "en_US" else p.lang)] ∧
    (⟨.property "og:locale", some (if p.lang = "en" then "en_US" else p.lang)⟩ : MetaTag)
      ∈ (Seo p s).meta := by
  constructor
  · unfold seoGeneratedMeta tagContents
    cases h1 : truthy (imageUrl p s) <;>
      cases h2 : p.article && truthy (some (author s)) <;>
        cases h3 : p.noindex <;>
          simp [h1, h2, h3, List.filter_append]
  · simp [Seo, seoGeneratedMeta]

/-- Claim C2, counterexample to the claim as frozen: in a call supplying only
the `title` prop, with site metadata carrying a site-wide default image, the
produced meta list does contain an `og:image` entry. -/
theorem C2_counterexample :
    (⟨.property "og:image", some "https://fernandonog.example/images/og-default.png"⟩ : MetaTag)
      ∈ (Seo { title := "Post" } exampleSite).meta := by
  decide

/-- Claim C2 (amended): in a call supplying only the `title` prop, the
produced meta list contains the description entry with the site-default
description, an `og:title` entry, and `og:type` with content "website", and
contains no author, robots or googlebot entry; it contains no
`og:image`/`twitter:image` entry exactly when the site-wide default image is
absent or empty. -/
theorem C2_title_only (t : String) (s : SiteMetadata) :
    (⟨.name "description", s.description⟩ : MetaTag) ∈ (Seo { title := t } s).meta ∧
    (⟨.property "og:title", some t⟩ : MetaTag) ∈ (Seo { title := t } s).meta ∧
    (⟨.property "og:type", some "website"⟩ : MetaTag) ∈ (Seo { title := t } s).meta ∧
    tagContents (Seo { title := t } s).meta (.name "author") = [] ∧
    tagContents (Seo { title := t } s).meta (.name "robots") = [] ∧
    tagContents (Seo { title := t } s).meta (.name "googlebot") = [] ∧
    (tagContents (Seo { title := t } s).meta (.property "og:image") = []
      ↔ truthy s.image = false) ∧
    (tagContents (Seo { title := t } s).meta (.name "twitter:image") = []
      ↔ truthy s.image = false) := by
  have hmd : metaDescription { title := t } s = s.description := by
    simp [metaDescription, jsOr, truthy]
  have hdi : defaultImage ({ title := t } : SeoProps) s = s.image := by
    simp [defaultImage, jsOr, truthy]
  cases hI : truthy s.image <;>
    simp [Seo, seoGeneratedMeta, tagContents, truthy_imageUrl, hdi, hI, hmd,
      List.filter_append]

/-- Claim C6: the produced meta list is the generated entries followed by the
caller-supplied `meta` entries, which stay a suffix in their original order. -/
theorem C6_meta_append (p : SeoProps) (s : SiteMetadata) :
    (Seo p s).meta = seoGeneratedMeta p s ++ p.meta ∧
    (Seo p s).meta.take (seoGeneratedMeta p s).length = seoGeneratedMeta p s ∧
    (Seo p s).meta.drop (seoGeneratedMeta p s).length = p.meta := by
  refine ⟨rfl, ?_, ?_⟩ <;> simp [Seo]

/-- Claim C7: the composition is deterministic; equal props and equal site
metadata give element-for-element equal Helmet output, link and meta lists
included. -/
theorem C7_deterministic (p₁ p₂ : SeoProps) (s₁ s₂ : SiteMetadata)
    (hp : p₁ = p₂) (hs : s₁ = s₂) : Seo p₁ s₁ = Seo p₂ s₂ := by
  rw [hp, hs]

/-- Claim C7, witness: the determinism theorem applied at a concrete call. -/
theorem C7_witness :
    Seo { title := "Home" } exampleSite = Seo { title := "Home" } exampleSite :=
  C7_deterministic _ _ _ _ rfl rfl

/-- Claim C8: whenever the resolved image (the `image` prop, else the
site-wide default image) is truthy, the produced meta list contains
`og:image:width` "1200", `og:image:height` "630", and `og:image` and
`twitter:image` entries carrying the site URL concatenated with the image
path. -/
theorem C8_image_tags (p : SeoProps) (s : SiteMetadata)
    (h : truthy (defaultImage p s) = true) :
    (⟨.property "og:image", some (siteUrl s ++ (defaultImage p s).getD "")⟩ : MetaTag)
      ∈ (Seo p s).meta ∧
    (⟨.property "og:image:width", some "1200"⟩ : MetaTag) ∈ (Seo p s).meta ∧
    (⟨.property "og:image:height", some "630"⟩ : MetaTag) ∈ (Seo p s).meta ∧
    (⟨.name "twitter:image", some (siteUrl s ++ (defaultImage p s).getD "")⟩ : MetaTag)
      ∈ (Seo p s).meta := by
  have hi : truthy (imageUrl p s) = true := by rw [truthy_imageUrl]; exact h
  have hu : imageUrl p s = some (siteUrl s ++ (defaultImage p s).getD "") := by
    simp [imageUrl, h]
  have hi2 : truthy (some (siteUrl s ++ (defaultImage p s).getD "")) = true := by
    rw [← hu]; exact hi
  refine ⟨?_, ?_, ?_, ?_⟩ <;> simp [Seo, seoGeneratedMeta, hi, hu, hi2]

/-- Claim C8, witness: the image-tag theorem applied at a concrete call with
an `image` prop. -/
theorem C8_witness :
    (⟨.property "og:image",
        some (siteUrl exampleSite
          ++ (defaultImage { title := "Post", image := some "/banner.png" } exampleSite).getD "")⟩
      : MetaTag)
      ∈ (Seo { title := "Post", image := some "/banner.png" } exampleSite).meta ∧
    (⟨.property "og:image:width", some "1200"⟩ : MetaTag)
      ∈ (Seo { title := "Post", image := some "/banner.png" } exampleSite).meta ∧
    (⟨.property "og:image:height", some "630"⟩ : MetaTag)
      ∈ (Seo { title := "Post", image := some "/banner.png" } exampleSite).meta ∧
    (⟨.name "twitter:image",
        some (siteUrl exampleSite
          ++ (defaultImage { title := "Post", image := some "/banner.png" } exampleSite).getD "")⟩
      : MetaTag)
      ∈ (Seo { title := "Post", image := some "/banner.png" } exampleSite).meta :=
  C8_image_tags { title := "Post", image := some "/banner.png" } exampleSite (by decide)

/-- Claim C9: under the spec-modelled build step, a raw call renders
successfully exactly when its `title` prop is present; every other absent
prop falls back to `Seo.defaultProps` and never fails. -/
theorem C9_title_required (r : RawSeoProps) (s : SiteMetadata) :
    (buildSeo r s).isOk = r.title.isSome := by
  cases h : r.title <;> simp [buildSeo, h, Except.isOk, Except.toBool]
